import Mathlib

/-!
Verification of the optimistic-update reconciliation engine embedded in
`src/frontend/src/components/tasks/TaskList.jsx` of the GrindChain repository.

The JavaScript component keeps three pieces of state:
  * `tasks` (prop)            — the last authoritative collection (Snapshot Store),
  * `optimisticTasks`         — the speculative overlay rendered to the user,
  * `pendingUpdates`          — the set of in-flight `taskId-itemIndex` string keys.

The stateful handlers `handleRoadmapItemToggle` and `handleDelete` are embedded
as explicit state-passing functions over an `EngineState`; the asynchronous
suspension at the remote call is modelled by splitting the toggle into a
synchronous start phase (`toggleStart`, everything up to and including issuing
the fetch) and a resolution phase (`toggleFinish`, the continuation running
when the fetch resolves).  The remote response is a parameter
(`ToggleResult` / `DeleteResult`), and observable effects (remote calls,
collaborator notifications, console logging) are returned as explicit lists.

JavaScript-specific conventions used by the embedding:
  * absent / non-array / falsy object fields become `Option`;
  * a user id that is the empty string is falsy in JS, so the `!user._id`
    guard treats it as unset;
  * `Math.round((c / t) * 100)` is embedded as the source computes it, in
    IEEE binary64 arithmetic: correctly rounded division, correctly rounded
    multiplication by 100, then `Math.round` (ties toward positive infinity)
    on the exact value of the resulting double — this differs from exact
    rational rounding at inputs such as 23 of 40 (57, not 58);
  * the closure capture of the `tasks` prop by the in-flight async invocation
    is recorded in the `InFlight.capturedTasks` field: a refresh that happens
    while the fetch is outstanding does not change what the failure
    continuation rolls back to.
-/

namespace GrindChain

/-- A roadmap checklist entry: display text and a completed flag. -/
structure RoadmapItem where
  text : String := ""
  completed : Bool := false
deriving DecidableEq

/-- A sub-assignment of a group task: label plus nullable assignee reference. -/
structure TaskHeader where
  title : String := ""
  assignedTo : Option String := none
deriving DecidableEq

/-- A milestone: title plus optional due date. -/
structure Milestone where
  title : String := ""
  dueDate : Option String := none
deriving DecidableEq

/-- A learning resource entry. -/
structure Resource where
  title : String := ""
  url : String := ""
  platform : String := ""
  description : Option String := none
deriving DecidableEq

/-- The free/paid resource lists attached to a task. -/
structure ResourceBundle where
  free : List Resource := []
  paid : List Resource := []
deriving DecidableEq

/-- A task as handled by the component.  Fields that the JS code reads
defensively (may be absent or malformed) are `Option`-valued. -/
structure Task where
  _id : String := ""
  title : String := ""
  priority : String := ""
  duration : String := ""
  aiGenerated : Bool := false
  isGroupTask : Bool := false
  assignedTo : Option String := none
  createdBy : Option String := none
  description : Option String := none
  taskHeaders : Option (List TaskHeader) := none
  roadmapItems : Option (List RoadmapItem) := none
  milestones : Option (List Milestone) := none
  resources : Option ResourceBundle := none
  overallProgress : Nat := 0
  completed : Bool := false
deriving DecidableEq

/-- A group member, used only for assignee display-name resolution. -/
structure GroupMember where
  _id : String := ""
  username : String := ""
deriving DecidableEq

/-- Embedding of `isTaskAssignedToMe` (TaskList.jsx lines 56-72).  The JS
reads the current user from context; here the user's `_id` is a parameter,
`none` for a missing user and `some ""` for a falsy id (both fail the
`!user || !user._id` guard). -/
def isTaskAssignedToMe (userId : Option String) (task : Task) : Bool :=
  match userId with
  | none => false
  | some uid =>
    if uid = "" then false
    else if task.assignedTo = some uid then true
    else if task.isGroupTask && task.taskHeaders.isSome then
      (task.taskHeaders.getD []).any fun header => header.assignedTo == some uid
    else false

/-- Round-to-nearest-even integer of the fraction `a / b` (`b > 0`): the
IEEE 754 default rounding of an exact quotient to an integer. -/
def rneDiv (a b : Nat) : Nat :=
  let q := a / b
  let r := a % b
  if 2 * r < b then q
  else if b < 2 * r then q + 1
  else if q % 2 = 0 then q else q + 1

/-- Fuel-driven floor of the base-2 logarithm (fuel-structural so that it
reduces inside the kernel). -/
def natLog2Aux : Nat → Nat → Nat
  | 0, _ => 0
  | fuel + 1, n => if 2 ≤ n then natLog2Aux fuel (n / 2) + 1 else 0

/-- `natLog2 n` is the floor of the base-2 logarithm of `n` (0 for `n = 0`);
fuel `n` suffices since the recursion halves `n`. -/
def natLog2 (n : Nat) : Nat := natLog2Aux n n

/-- Whether the fraction `a / b` is at least `2 ^ k` (`b > 0`). -/
def fracGePow2 (a b : Nat) (k : Int) : Bool :=
  if 0 ≤ k then decide (b * 2 ^ k.toNat ≤ a) else decide (b ≤ a * 2 ^ (-k).toNat)

/-- Floor of the base-2 logarithm of the positive fraction `a / b`: the
first estimate from the integer logarithms is off by at most one and is
fixed up by direct comparison. -/
def ratFloorLog2 (a b : Nat) : Int :=
  let e0 : Int := (natLog2 a : Int) - (natLog2 b : Int)
  if fracGePow2 a b (e0 + 1) then e0 + 1
  else if fracGePow2 a b e0 then e0
  else e0 - 1

/-- The IEEE 754 binary64 value nearest to the nonnegative fraction
`a / b` (round to nearest, ties to even), returned as an exact fraction
`(num, den)`.  The significand is the 53-bit round-to-nearest-even of
`(a / b) * 2 ^ (52 - e)` with `e` the floor base-2 logarithm; this is the
correctly rounded result throughout the positive normal range, which covers
every value this component can produce (quotients of item counts and their
hundredfold). -/
def floatOfFrac (a b : Nat) : Nat × Nat :=
  if a = 0 then (0, 1)
  else
    let e := ratFloorLog2 a b
    if e ≤ 52 then (rneDiv (a * 2 ^ (52 - e).toNat) b, 2 ^ (52 - e).toNat)
    else (rneDiv a (b * 2 ^ (e - 52).toNat) * 2 ^ (e - 52).toNat, 1)

/-- Embedding of `Math.round((c / t) * 100)` as the source computes it, in
IEEE binary64 arithmetic: the division `c / t` is correctly rounded to a
double, the multiplication by 100 is correctly rounded to a double, and
`Math.round` maps the exact value of that double to the nearest integer
with ties toward positive infinity.  This can differ by one from the exact
rational rounding: `jsRound100 23 40 = 57` while `100 * 23 / 40 = 57.5`
would round up to 58. -/
def jsRound100 (c t : Nat) : Nat :=
  let p := floatOfFrac c t
  let q := floatOfFrac (p.1 * 100) p.2
  (2 * q.1 + q.2) / (2 * q.2)

/-- The rounding formula stated by the specification, taken at its word:
exact round-half-up of the rational `100 * c / t`.  Kept separate from
`jsRound100` (the embedding of what the source computes) so the two can be
compared. -/
def specRound100 (c t : Nat) : Nat := (200 * c + t) / (2 * t)

/-- Embedding of the JS in-place item replacement
`updated[idx] = \x7b ...updated[idx], completed: b \x7d` on a copied array:
replace the completed flag of the item at `idx`, keep everything else. -/
def setCompleted : List RoadmapItem → Nat → Bool → List RoadmapItem
  | [], _, _ => []
  | item :: rest, 0, b => { item with completed := b } :: rest
  | item :: rest, Nat.succ n, b => item :: setCompleted rest n b

/-- The per-task body of the `prevTasks.map` in `handleRoadmapItemToggle`
(TaskList.jsx lines 83-122): on the matching task, validate the roadmap
sequence and the index, then toggle the item and recompute the derived
fields; any other task, or a failed validation, passes through unchanged. -/
def toggleTaskUpdate (taskId : String) (itemIndex : Int) (newStatus : Bool)
    (task : Task) : Task :=
  if task._id = taskId then
    match task.roadmapItems with
    | none => task
    | some items =>
      if itemIndex < 0 ∨ (items.length : Int) ≤ itemIndex then task
      else
        let updatedRoadmapItems := setCompleted items itemIndex.toNat newStatus
        let completedItems := (updatedRoadmapItems.filter fun item => item.completed).length
        let totalItems := updatedRoadmapItems.length
        let newProgress := if 0 < totalItems then jsRound100 completedItems totalItems else 0
        { task with
            roadmapItems := some updatedRoadmapItems,
            overallProgress := newProgress,
            completed := newProgress == 100 }
  else task

/-- The Mutation Applier: the full `prevTasks.map` updater passed to
`setOptimisticTasks` (TaskList.jsx lines 82-123). -/
def applyRoadmapToggle (tasks : List Task) (taskId : String) (itemIndex : Int)
    (newStatus : Bool) : List Task :=
  tasks.map (toggleTaskUpdate taskId itemIndex newStatus)

/-- The component state touched by the engine: the `tasks` prop (Snapshot
Store), the `optimisticTasks` state (Speculative Overlay) and the
`pendingUpdates` set of in-flight string keys. -/
structure EngineState where
  tasks : List Task
  optimisticTasks : List Task
  pendingUpdates : List String
deriving DecidableEq

/-- Observable collaborator notifications and console logging. -/
inductive Event where
  | taskUpdated (t : Task)
  | taskDeleted (taskId : String)
  | warnLog
  | errorLog
deriving DecidableEq

/-- Remote calls issued by the handlers. -/
inductive RemoteCall where
  | patchRoadmap (taskId : String) (itemIndex : Int) (completed : Bool)
  | deleteTask (taskId : String)
deriving DecidableEq

/-- Outcome of the roadmap PATCH call as seen by the continuation:
`success payload` for a resolved response whose `data.success` is truthy
(`payload = none` when `data.data.task` is absent, i.e. a malformed body),
`noSuccess` for a resolved response with a falsy `data.success`, and
`transportError` when `fetch` or `response.json()` throws. -/
inductive ToggleResult where
  | success (payload : Option Task)
  | noSuccess
  | transportError
deriving DecidableEq

/-- Outcome of the DELETE call. -/
inductive DeleteResult where
  | success
  | noSuccess
  | transportError
deriving DecidableEq

/-- Environment of the success branch: whether the `onTaskUpdated` prop is
set, and whether invoking it throws. -/
structure CallbackBehavior where
  onTaskUpdatedPresent : Bool
  onTaskUpdatedThrows : Bool
deriving DecidableEq

/-- Embedding of the template-literal operation key
computed at TaskList.jsx line 77. -/
def updateKey (taskId : String) (itemIndex : Int) : String :=
  taskId ++ "-" ++ toString itemIndex

/-- The data the suspended async invocation holds across the `await`:
its key, the request arguments, and — crucially — the `tasks` prop value
captured by the closure when the call was issued. -/
structure InFlight where
  updateKey : String
  taskId : String
  itemIndex : Int
  newStatus : Bool
  capturedTasks : List Task
deriving DecidableEq

/-- The `console.warn` emitted (per matching task) by the validation code
inside the overlay map (TaskList.jsx lines 85-100). -/
def roadmapToggleWarn (taskId : String) (itemIndex : Int) (task : Task) :
    Option Event :=
  if task._id = taskId then
    match task.roadmapItems with
    | none => some Event.warnLog
    | some items =>
      if itemIndex < 0 ∨ (items.length : Int) ≤ itemIndex then some Event.warnLog
      else none
  else none

/-- All warnings produced by one application of the overlay map. -/
def applyWarnEvents (tasks : List Task) (taskId : String) (itemIndex : Int) :
    List Event :=
  tasks.filterMap (roadmapToggleWarn taskId itemIndex)

/-- Result of the synchronous start phase of `handleRoadmapItemToggle`. -/
structure StartResult where
  state : EngineState
  op : Option InFlight
  calls : List RemoteCall
  events : List Event
deriving DecidableEq

/-- Synchronous start phase of `handleRoadmapItemToggle` (TaskList.jsx lines
76-135): negate the status, compute the key, return early if the key is already
pending, otherwise add the key, apply the optimistic map, and issue the
PATCH call. -/
def toggleStart (s : EngineState) (taskId : String) (itemIndex : Int)
    (currentStatus : Bool) : StartResult :=
  let newStatus := !currentStatus
  let key := updateKey taskId itemIndex
  if key ∈ s.pendingUpdates then
    { state := s, op := none, calls := [], events := [] }
  else
    { state :=
        { tasks := s.tasks,
          optimisticTasks := applyRoadmapToggle s.optimisticTasks taskId itemIndex newStatus,
          pendingUpdates := key :: s.pendingUpdates },
      op := some
        { updateKey := key, taskId := taskId, itemIndex := itemIndex,
          newStatus := newStatus, capturedTasks := s.tasks },
      calls := [RemoteCall.patchRoadmap taskId itemIndex newStatus],
      events := applyWarnEvents s.optimisticTasks taskId itemIndex }

/-- Resolution phase of `handleRoadmapItemToggle` (TaskList.jsx lines
136-157): on a truthy success flag, invoke `onTaskUpdated` with
`data.data.task` inside the inner try/catch (a missing payload or a throwing
callback is caught and logged there — no rollback); on a falsy success flag
or a thrown transport error, reset the overlay to the closure-captured
`tasks`; in all cases the `finally` block removes the key. -/
def toggleFinish (s : EngineState) (op : InFlight) (r : ToggleResult)
    (cb : CallbackBehavior) : EngineState × List Event :=
  let step : EngineState × List Event :=
    match r with
    | ToggleResult.success payload =>
      if cb.onTaskUpdatedPresent then
        match payload with
        | some t =>
          if cb.onTaskUpdatedThrows then (s, [Event.errorLog])
          else (s, [Event.taskUpdated t])
        | none => (s, [Event.errorLog])
      else (s, [])
    | ToggleResult.noSuccess =>
      ({ s with optimisticTasks := op.capturedTasks }, [])
    | ToggleResult.transportError =>
      ({ s with optimisticTasks := op.capturedTasks }, [Event.errorLog])
  ({ step.1 with pendingUpdates := step.1.pendingUpdates.erase op.updateKey },
   step.2)

/-- A whole `handleRoadmapItemToggle` call whose remote response (when one is
issued) resolves to `r`: start phase, then — unless the key gate dropped the
call — the resolution phase. -/
def handleRoadmapItemToggle (s : EngineState) (taskId : String)
    (itemIndex : Int) (currentStatus : Bool) (r : ToggleResult)
    (cb : CallbackBehavior) : EngineState × List RemoteCall × List Event :=
  let st := toggleStart s taskId itemIndex currentStatus
  match st.op with
  | none => (st.state, st.calls, st.events)
  | some op =>
    let fin := toggleFinish st.state op r cb
    (fin.1, st.calls, st.events ++ fin.2)

/-- The `useEffect` on the `tasks` prop (TaskList.jsx lines 29-31): a new
authoritative collection reseeds the overlay wholesale. -/
def refresh (s : EngineState) (newTasks : List Task) : EngineState :=
  { s with tasks := newTasks, optimisticTasks := newTasks }

/-- Embedding of `handleDelete` (TaskList.jsx lines 162-177): issue one
DELETE call; notify `onTaskDeleted` only on a truthy success flag; log a
transport error; never touch local state. -/
def handleDelete (s : EngineState) (taskId : String) (r : DeleteResult) :
    EngineState × List RemoteCall × List Event :=
  match r with
  | DeleteResult.success => (s, [RemoteCall.deleteTask taskId], [Event.taskDeleted taskId])
  | DeleteResult.noSuccess => (s, [RemoteCall.deleteTask taskId], [])
  | DeleteResult.transportError => (s, [RemoteCall.deleteTask taskId], [Event.errorLog])

/-- A configuration of the interleaving semantics: the component state plus
the multiset of suspended toggle invocations. -/
structure Config where
  engine : EngineState
  inflight : List InFlight
deriving DecidableEq

/-- Reachability under the engine's events: initial mount (empty overlay and
tracker), snapshot refresh, issuing a toggle (which may be dropped by the key
gate), resolving a suspended toggle, and a delete call. -/
inductive Reachable : Config → Prop where
  | init (ts : List Task) :
      Reachable { engine := { tasks := ts, optimisticTasks := [], pendingUpdates := [] },
                  inflight := [] }
  | refreshStep (cfg : Config) (ts : List Task) : Reachable cfg →
      Reachable { engine := refresh cfg.engine ts, inflight := cfg.inflight }
  | startStep (cfg : Config) (taskId : String) (idx : Int) (cs : Bool) :
      Reachable cfg →
      Reachable { engine := (toggleStart cfg.engine taskId idx cs).state,
                  inflight := (toggleStart cfg.engine taskId idx cs).op.toList ++ cfg.inflight }
  | finishStep (cfg : Config) (op : InFlight) (r : ToggleResult)
      (cb : CallbackBehavior) : Reachable cfg → op ∈ cfg.inflight →
      Reachable { engine := (toggleFinish cfg.engine op r cb).1,
                  inflight := cfg.inflight.erase op }
  | deleteStep (cfg : Config) (taskId : String) (r : DeleteResult) :
      Reachable cfg →
      Reachable { engine := (handleDelete cfg.engine taskId r).1,
                  inflight := cfg.inflight }

/-! ### Helper lemmas -/

theorem setCompleted_length (items : List RoadmapItem) (idx : Nat) (b : Bool) :
    (setCompleted items idx b).length = items.length := by
  induction items generalizing idx with
  | nil => rfl
  | cons item rest ih =>
    cases idx with
    | zero => rfl
    | succ n => simpa [setCompleted] using ih n

theorem setCompleted_get?_ne (items : List RoadmapItem) (idx : Nat) (b : Bool)
    (j : Nat) (h : j ≠ idx) :
    (setCompleted items idx b).get? j = items.get? j := by
  induction items generalizing idx j with
  | nil => rfl
  | cons item rest ih =>
    cases idx with
    | zero =>
      cases j with
      | zero => exact absurd rfl h
      | succ m => rfl
    | succ n =>
      cases j with
      | zero => rfl
      | succ m =>
        simpa [setCompleted] using ih n m (fun hc => h (by simpa using congrArg Nat.succ hc))

theorem setCompleted_get?_self (items : List RoadmapItem) (idx : Nat) (b : Bool) :
    (setCompleted items idx b).get? idx =
      (items.get? idx).map fun it => { it with completed := b } := by
  induction items generalizing idx with
  | nil => rfl
  | cons item rest ih =>
    cases idx with
    | zero => rfl
    | succ n => simpa [setCompleted] using ih n

theorem toggleTaskUpdate_not_target (taskId : String) (idx : Int) (ns : Bool)
    (u : Task) (h : u._id ≠ taskId) : toggleTaskUpdate taskId idx ns u = u := by
  simp [toggleTaskUpdate, h]

theorem map_toggleTaskUpdate_id (taskId : String) (idx : Int) (ns : Bool)
    (l : List Task) (h : ∀ u ∈ l, u._id ≠ taskId) :
    l.map (toggleTaskUpdate taskId idx ns) = l := by
  induction l with
  | nil => rfl
  | cons u rest ih =>
    simp only [List.map_cons,
      toggleTaskUpdate_not_target taskId idx ns u (h u (List.mem_cons_self u rest)),
      ih (fun v hv => h v (List.mem_cons_of_mem u hv))]

theorem toggleTaskUpdate_target (taskId : String) (idx : Int) (ns : Bool)
    (t : Task) (items : List RoadmapItem)
    (hid : t._id = taskId) (hitems : t.roadmapItems = some items)
    (h0 : 0 ≤ idx) (hlen : idx < (items.length : Int)) :
    toggleTaskUpdate taskId idx ns t =
      { t with
          roadmapItems := some (setCompleted items idx.toNat ns),
          overallProgress :=
            jsRound100
              (((setCompleted items idx.toNat ns).filter fun item => item.completed).length)
              (setCompleted items idx.toNat ns).length,
          completed :=
            jsRound100
              (((setCompleted items idx.toNat ns).filter fun item => item.completed).length)
              (setCompleted items idx.toNat ns).length == 100 } := by
  have hrange : ¬(idx < 0 ∨ (items.length : Int) ≤ idx) := by omega
  have hpos : 0 < (setCompleted items idx.toNat ns).length := by
    rw [setCompleted_length]; omega
  simp [toggleTaskUpdate, hid, hitems, hrange, hpos]

theorem toggleFinish_pendingUpdates (s : EngineState) (op : InFlight)
    (r : ToggleResult) (cb : CallbackBehavior) :
    (toggleFinish s op r cb).1.pendingUpdates = s.pendingUpdates.erase op.updateKey := by
  cases r with
  | success payload =>
    cases payload <;> cases hb : cb.onTaskUpdatedPresent <;>
      cases ht : cb.onTaskUpdatedThrows <;> simp [toggleFinish, hb, ht]
  | noSuccess => rfl
  | transportError => rfl

theorem toggleFinish_rollback (s : EngineState) (op : InFlight)
    (r : ToggleResult) (cb : CallbackBehavior)
    (hr : r = ToggleResult.noSuccess ∨ r = ToggleResult.transportError) :
    (toggleFinish s op r cb).1.optimisticTasks = op.capturedTasks := by
  rcases hr with hr | hr <;> subst hr <;> rfl

theorem toggleStart_op_spec (s : EngineState) (taskId : String) (idx : Int)
    (cs : Bool) (op : InFlight) (hop : (toggleStart s taskId idx cs).op = some op) :
    op.capturedTasks = s.tasks ∧ op.updateKey = updateKey taskId idx := by
  by_cases hk : updateKey taskId idx ∈ s.pendingUpdates
  · simp [toggleStart, hk] at hop
  · simp [toggleStart, hk] at hop
    subst hop
    exact ⟨rfl, rfl⟩

theorem handleDelete_state (s : EngineState) (taskId : String) (r : DeleteResult) :
    (handleDelete s taskId r).1 = s := by
  cases r <;> rfl

/-- The validation inside the overlay map fails for this task: the roadmap
sequence is absent/malformed, or the index is out of `[0, length)`. -/
def toggleValidationFails (t : Task) (idx : Int) : Bool :=
  match t.roadmapItems with
  | none => true
  | some items => decide (idx < 0 ∨ (items.length : Int) ≤ idx)

theorem toggleTaskUpdate_invalid (taskId : String) (idx : Int) (ns : Bool)
    (t : Task) (hbad : t._id = taskId → toggleValidationFails t idx = true) :
    toggleTaskUpdate taskId idx ns t = t := by
  by_cases hid : t._id = taskId
  · cases h : t.roadmapItems with
    | none => simp [toggleTaskUpdate, hid, h]
    | some items =>
      have hr : idx < 0 ∨ (items.length : Int) ≤ idx := by
        have hb := hbad hid
        rw [toggleValidationFails, h] at hb
        exact of_decide_eq_true hb
      simp [toggleTaskUpdate, hid, h, hr]
  · exact toggleTaskUpdate_not_target _ _ _ _ hid

theorem applyRoadmapToggle_invalid (tasks : List Task) (taskId : String)
    (idx : Int) (ns : Bool)
    (hbad : ∀ t ∈ tasks, t._id = taskId → toggleValidationFails t idx = true) :
    applyRoadmapToggle tasks taskId idx ns = tasks := by
  induction tasks with
  | nil => rfl
  | cons t rest ih =>
    simp only [applyRoadmapToggle, List.map_cons,
      toggleTaskUpdate_invalid taskId idx ns t (hbad t (List.mem_cons_self t rest))]
    have := ih fun u hu => hbad u (List.mem_cons_of_mem t hu)
    simpa [applyRoadmapToggle] using this

theorem applyWarnEvents_invalid (tasks : List Task) (taskId : String) (idx : Int)
    (hbad : ∀ t ∈ tasks, t._id = taskId → toggleValidationFails t idx = true) :
    (applyWarnEvents tasks taskId idx).length =
      (tasks.filter fun t => t._id == taskId).length := by
  induction tasks with
  | nil => rfl
  | cons t rest ih =>
    have ihr := ih fun u hu => hbad u (List.mem_cons_of_mem t hu)
    by_cases hid : t._id = taskId
    · have hwarn : roadmapToggleWarn taskId idx t = some Event.warnLog := by
        cases h : t.roadmapItems with
        | none => simp [roadmapToggleWarn, hid, h]
        | some items =>
          have hr : idx < 0 ∨ (items.length : Int) ≤ idx := by
            have hb := hbad t (List.mem_cons_self t rest) hid
            rw [toggleValidationFails, h] at hb
            exact of_decide_eq_true hb
          simp [roadmapToggleWarn, hid, h, hr]
      simp [applyWarnEvents, List.filterMap_cons, hwarn, hid,
        applyWarnEvents] at ihr ⊢
      omega
    · have hwarn : roadmapToggleWarn taskId idx t = none := by
        simp [roadmapToggleWarn, hid]
      simp [applyWarnEvents, List.filterMap_cons, hwarn, hid] at ihr ⊢
      omega

/-- Tracker invariant over the interleaving semantics: the keys of suspended
invocations are pairwise distinct, and every suspended invocation holds its
key in the pending set. -/
def TrackerInv (cfg : Config) : Prop :=
  (cfg.inflight.map InFlight.updateKey).Nodup ∧
  ∀ op ∈ cfg.inflight, op.updateKey ∈ cfg.engine.pendingUpdates

theorem toggleStart_pending (s : EngineState) (taskId : String) (idx : Int)
    (cs : Bool) (hk : updateKey taskId idx ∈ s.pendingUpdates) :
    toggleStart s taskId idx cs = { state := s, op := none, calls := [], events := [] } := by
  simp [toggleStart, hk]

theorem toggleStart_not_pending (s : EngineState) (taskId : String) (idx : Int)
    (cs : Bool) (hk : updateKey taskId idx ∉ s.pendingUpdates) :
    toggleStart s taskId idx cs =
      { state :=
          { tasks := s.tasks,
            optimisticTasks := applyRoadmapToggle s.optimisticTasks taskId idx (!cs),
            pendingUpdates := updateKey taskId idx :: s.pendingUpdates },
        op := some
          { updateKey := updateKey taskId idx, taskId := taskId, itemIndex := idx,
            newStatus := !cs, capturedTasks := s.tasks },
        calls := [RemoteCall.patchRoadmap taskId idx (!cs)],
        events := applyWarnEvents s.optimisticTasks taskId idx } := by
  simp [toggleStart, hk]

theorem reachable_trackerInv (cfg : Config) (h : Reachable cfg) : TrackerInv cfg := by
  induction h with
  | init ts =>
    exact ⟨List.nodup_nil, by intro op hop; simp at hop⟩
  | refreshStep cfg ts _ ih =>
    exact ⟨ih.1, fun op hop => ih.2 op hop⟩
  | startStep cfg taskId idx cs _ ih =>
    by_cases hk : updateKey taskId idx ∈ cfg.engine.pendingUpdates
    · rw [toggleStart_pending cfg.engine taskId idx cs hk]
      exact ih
    · rw [toggleStart_not_pending cfg.engine taskId idx cs hk]
      constructor
      · simp only [Option.toList_some, List.singleton_append, List.map_cons,
          List.nodup_cons]
        refine ⟨?_, ih.1⟩
        intro hmem
        rcases List.mem_map.1 hmem with ⟨op, hop, hkey⟩
        exact hk (hkey ▸ ih.2 op hop)
      · intro op hop
        simp only [Option.toList_some, List.singleton_append, List.mem_cons] at hop
        rcases hop with rfl | hop
        · exact List.mem_cons_self _ _
        · exact List.mem_cons_of_mem _ (ih.2 op hop)
  | finishStep cfg op r cb _ hmem ih =>
    have hnd : cfg.inflight.Nodup := ih.1.of_map
    constructor
    · exact ih.1.sublist ((cfg.inflight.erase_sublist op).map InFlight.updateKey)
    · intro op' hop'
      rcases (hnd.mem_erase_iff).1 hop' with ⟨hne, hop'in⟩
      have hkeymem : op'.updateKey ∈ cfg.engine.pendingUpdates := ih.2 op' hop'in
      have hkne : op'.updateKey ≠ op.updateKey := fun he =>
        hne (List.inj_on_of_nodup_map ih.1 hop'in hmem he)
      rw [toggleFinish_pendingUpdates]
      exact (List.mem_erase_of_ne hkne).2 hkeymem
  | deleteStep cfg taskId r _ ih =>
    refine ⟨ih.1, fun op hop => ?_⟩
    rw [handleDelete_state]
    exact ih.2 op hop

/-- A 40-item task, 22 items complete, used to exhibit the binary64 rounding
of the progress computation. -/
def fortyTask : Task :=
  { _id := "t40",
    roadmapItems := some
      (List.replicate 22 { text := "d", completed := true } ++
        List.replicate 18 { text := "d" }) }

/-! ### Claim theorems -/

/-- C1 counterexample: the claim states that `overallProgress` equals the
exact rounding round(100 * completedCount / totalCount).  Toggling the 23rd
item of a 40-item task (22 already complete) makes the source compute
`Math.round((23 / 40) * 100)` in binary64, where `(23 / 40) * 100` evaluates
to 57.49999999999999 and rounds to 57 — while the exact rounding of
100 * 23 / 40 = 57.5 is 58. -/
theorem progress_rounding_counterexample :
    ((applyRoadmapToggle [fortyTask] "t40" 22 true).getD 0 {}).overallProgress = 57 ∧
    specRound100 23 40 = 58 ∧
    ¬ (((applyRoadmapToggle [fortyTask] "t40" 22 true).getD 0 {}).overallProgress =
        specRound100
          ((((applyRoadmapToggle [fortyTask] "t40" 22 true).getD 0 {}).roadmapItems.getD []).filter
              fun item => item.completed).length
          (((applyRoadmapToggle [fortyTask] "t40" 22 true).getD 0 {}).roadmapItems.getD []).length) := by
  decide

/-- C1 amended: for every overlay containing exactly one task with identifier
`taskId`, that task having a proper roadmap sequence `items`, and a position
`idx` in `[0, items.length)`, a successful apply of a toggle produces a new
overlay in which exactly that task is replaced: only the item at `idx` has
its completed flag set to the new value (its text unchanged, all other items
unchanged), `overallProgress` equals `Math.round` of
`(completedCount / totalCount) * 100` computed in IEEE binary64 arithmetic
over the updated sequence (which can differ by one from the exact rational
rounding, as the counterexample shows), `completed` is true iff
`overallProgress = 100`, and all other tasks and all other fields of the
affected task are unchanged. -/
theorem roadmap_toggle_applier_correct
    (pre post : List Task) (t : Task) (taskId : String) (idx : Int)
    (newStatus : Bool) (items : List RoadmapItem)
    (hid : t._id = taskId)
    (hitems : t.roadmapItems = some items)
    (h0 : 0 ≤ idx) (hlen : idx < (items.length : Int))
    (hpre : ∀ u ∈ pre, u._id ≠ taskId) (hpost : ∀ u ∈ post, u._id ≠ taskId) :
    ∃ t' items',
      applyRoadmapToggle (pre ++ t :: post) taskId idx newStatus = pre ++ t' :: post ∧
      t'.roadmapItems = some items' ∧
      items'.length = items.length ∧
      (∀ j, j ≠ idx.toNat → items'.get? j = items.get? j) ∧
      items'.get? idx.toNat =
        (items.get? idx.toNat).map (fun it => { it with completed := newStatus }) ∧
      t'.overallProgress =
        jsRound100 ((items'.filter fun item => item.completed).length) items'.length ∧
      (t'.completed = true ↔ t'.overallProgress = 100) ∧
      t'._id = t._id ∧ t'.title = t.title ∧ t'.priority = t.priority ∧
      t'.duration = t.duration ∧ t'.aiGenerated = t.aiGenerated ∧
      t'.isGroupTask = t.isGroupTask ∧ t'.assignedTo = t.assignedTo ∧
      t'.createdBy = t.createdBy ∧ t'.description = t.description ∧
      t'.taskHeaders = t.taskHeaders ∧ t'.milestones = t.milestones ∧
      t'.resources = t.resources := by
  have htgt := toggleTaskUpdate_target taskId idx newStatus t items hid hitems h0 hlen
  refine ⟨toggleTaskUpdate taskId idx newStatus t,
    setCompleted items idx.toNat newStatus, ?_, ?_, ?_, ?_, ?_, ?_, ?_,
    ?_, ?_, ?_, ?_, ?_, ?_, ?_, ?_, ?_, ?_, ?_, ?_⟩
  · rw [applyRoadmapToggle, List.map_append, List.map_cons]
    rw [map_toggleTaskUpdate_id taskId idx newStatus pre hpre,
      map_toggleTaskUpdate_id taskId idx newStatus post hpost]
  · rw [htgt]
  · exact setCompleted_length items idx.toNat newStatus
  · exact fun j hj => setCompleted_get?_ne items idx.toNat newStatus j hj
  · exact setCompleted_get?_self items idx.toNat newStatus
  · rw [htgt]
  · rw [htgt]
    simp
  · rw [htgt]
  · rw [htgt]
  · rw [htgt]
  · rw [htgt]
  · rw [htgt]
  · rw [htgt]
  · rw [htgt]
  · rw [htgt]
  · rw [htgt]
  · rw [htgt]
  · rw [htgt]
  · rw [htgt]

/-- Concrete roadmap item used by witnesses. -/
def itemA : RoadmapItem := { text := "a" }

/-- Concrete roadmap item used by witnesses. -/
def itemB : RoadmapItem := { text := "b" }

/-- Concrete task used by witnesses: two incomplete roadmap items. -/
def sampleTask : Task := { _id := "t1", roadmapItems := some [itemA, itemB] }

/-- Concrete engine state used by witnesses: snapshot and overlay both hold
`sampleTask`, nothing pending. -/
def sampleState : EngineState :=
  { tasks := [sampleTask], optimisticTasks := [sampleTask], pendingUpdates := [] }

/-- Concrete engine state whose tracker already holds the key of
`sampleTask` item 0. -/
def pendingState : EngineState :=
  { tasks := [sampleTask], optimisticTasks := [sampleTask], pendingUpdates := ["t1-0"] }

/-- The in-flight record produced by toggling `sampleTask` item 0 from
`sampleState`. -/
def sampleOp : InFlight :=
  { updateKey := "t1-0", taskId := "t1", itemIndex := 0, newStatus := true,
    capturedTasks := [sampleTask] }

/-- Concrete replacement snapshot delivered by a refresh. -/
def refreshedTask : Task := { _id := "t2" }

theorem handleRoadmapItemToggle_pendingUpdates (s : EngineState)
    (taskId : String) (idx : Int) (cs : Bool) (r : ToggleResult)
    (cb : CallbackBehavior) :
    (handleRoadmapItemToggle s taskId idx cs r cb).1.pendingUpdates = s.pendingUpdates := by
  by_cases hk : updateKey taskId idx ∈ s.pendingUpdates
  · simp [handleRoadmapItemToggle, toggleStart_pending s taskId idx cs hk]
  · simp [handleRoadmapItemToggle, toggleStart_not_pending s taskId idx cs hk,
      toggleFinish_pendingUpdates]

/-- C1 witness: toggling item 0 of a two-item task at a concrete state. -/
theorem roadmap_toggle_applier_correct_witness :
    (sampleTask._id = "t1" ∧ sampleTask.roadmapItems = some [itemA, itemB] ∧
      (0 : Int) ≤ 0 ∧ (0 : Int) < (([itemA, itemB] : List RoadmapItem).length : Int)) ∧
    (∃ t' items',
      applyRoadmapToggle ([] ++ sampleTask :: []) "t1" 0 true = [] ++ t' :: [] ∧
      t'.roadmapItems = some items' ∧
      items'.length = ([itemA, itemB] : List RoadmapItem).length ∧
      (∀ j, j ≠ (0 : Int).toNat →
        items'.get? j = ([itemA, itemB] : List RoadmapItem).get? j) ∧
      items'.get? (0 : Int).toNat =
        (([itemA, itemB] : List RoadmapItem).get? (0 : Int).toNat).map
          (fun it => { it with completed := true }) ∧
      t'.overallProgress =
        jsRound100 ((items'.filter fun item => item.completed).length) items'.length ∧
      (t'.completed = true ↔ t'.overallProgress = 100) ∧
      t'._id = sampleTask._id ∧ t'.title = sampleTask.title ∧
      t'.priority = sampleTask.priority ∧ t'.duration = sampleTask.duration ∧
      t'.aiGenerated = sampleTask.aiGenerated ∧
      t'.isGroupTask = sampleTask.isGroupTask ∧
      t'.assignedTo = sampleTask.assignedTo ∧
      t'.createdBy = sampleTask.createdBy ∧
      t'.description = sampleTask.description ∧
      t'.taskHeaders = sampleTask.taskHeaders ∧
      t'.milestones = sampleTask.milestones ∧
      t'.resources = sampleTask.resources) :=
  ⟨⟨rfl, rfl, by decide, by decide⟩,
   roadmap_toggle_applier_correct [] [] sampleTask "t1" 0 true [itemA, itemB]
     rfl rfl (by decide) (by decide) (by simp) (by simp)⟩

/-- C2 counterexample: snapshot `[sampleTask]`, toggle issued, then a refresh
delivers `[refreshedTask]`, then the remote call fails.  The claim says the
overlay is reseeded from the Snapshot Store value at the time of the failure
(`[refreshedTask]`); the code reseeds from the closure-captured value at the
time the toggle was issued (`[sampleTask]`). -/
theorem rollback_snapshot_counterexample :
    ¬ ((toggleFinish
          (refresh (toggleStart sampleState "t1" 0 false).state [refreshedTask])
          ((toggleStart sampleState "t1" 0 false).op.getD
            { updateKey := "", taskId := "", itemIndex := 0, newStatus := false,
              capturedTasks := [] })
          ToggleResult.noSuccess
          { onTaskUpdatedPresent := true, onTaskUpdatedThrows := false }).1.optimisticTasks
        = (refresh (toggleStart sampleState "t1" 0 false).state [refreshedTask]).tasks) := by
  decide

/-- C2 amended: on a remote failure (non-success result or transport error)
the entire speculative overlay is discarded and reseeded from the Snapshot
Store value captured when the toggle was issued — not from the value current
at failure time, even if a refresh occurred while the call was outstanding. -/
theorem rollback_uses_issue_time_snapshot
    (s0 : EngineState) (taskId : String) (idx : Int) (cs : Bool)
    (newTasks : List Task) (r : ToggleResult) (cb : CallbackBehavior)
    (op : InFlight)
    (hop : (toggleStart s0 taskId idx cs).op = some op)
    (hr : r = ToggleResult.noSuccess ∨ r = ToggleResult.transportError) :
    (toggleFinish (refresh (toggleStart s0 taskId idx cs).state newTasks)
        op r cb).1.optimisticTasks = s0.tasks := by
  have hcap := (toggleStart_op_spec s0 taskId idx cs op hop).1
  rw [toggleFinish_rollback _ _ _ _ hr, hcap]

/-- C2 witness: the amended rollback at a concrete state and refresh. -/
theorem rollback_uses_issue_time_snapshot_witness :
    ((toggleStart sampleState "t1" 0 false).op = some sampleOp) ∧
    (toggleFinish (refresh (toggleStart sampleState "t1" 0 false).state [refreshedTask])
        sampleOp ToggleResult.noSuccess
        { onTaskUpdatedPresent := true, onTaskUpdatedThrows := false }).1.optimisticTasks
      = sampleState.tasks :=
  ⟨by decide,
   rollback_uses_issue_time_snapshot sampleState "t1" 0 false [refreshedTask]
     ToggleResult.noSuccess
     { onTaskUpdatedPresent := true, onTaskUpdatedThrows := false }
     sampleOp (by decide) (Or.inl rfl)⟩

/-- The canonical task a weighting server could return for the confirmed
toggle: progress 70 instead of the speculative 50. -/
def canonicalTask : Task :=
  { _id := "t1",
    roadmapItems := some [{ text := "a", completed := true }, itemB],
    overallProgress := 70 }

/-- C3 counterexample: after the speculative toggle of `sampleTask` item 0,
the remote call confirms with `canonicalTask`.  The claim says the engine
replaces the affected task in the overlay with the canonical object, so the
overlay would be `[canonicalTask]`; the code leaves the overlay in its
speculative state. -/
theorem confirm_overlay_counterexample :
    ¬ ((toggleFinish (toggleStart sampleState "t1" 0 false).state sampleOp
          (ToggleResult.success (some canonicalTask))
          { onTaskUpdatedPresent := true, onTaskUpdatedThrows := false }).1.optimisticTasks
        = [canonicalTask]) := by
  decide

/-- C3 amended: on a success response carrying a canonical task, the engine
notifies the `onTaskUpdated` collaborator with the canonical task (when the
callback is present and does not throw), but does not touch the overlay or
the snapshot: the overlay keeps the speculative recomputation until the
collaborator delivers a new snapshot. -/
theorem confirm_notifies_canonical_without_merge
    (s : EngineState) (op : InFlight) (t : Task) (cb : CallbackBehavior) :
    (toggleFinish s op (ToggleResult.success (some t)) cb).1.optimisticTasks
        = s.optimisticTasks ∧
    (toggleFinish s op (ToggleResult.success (some t)) cb).1.tasks = s.tasks ∧
    (toggleFinish s op (ToggleResult.success (some t)) cb).2 =
      (if cb.onTaskUpdatedPresent then
        (if cb.onTaskUpdatedThrows then [Event.errorLog] else [Event.taskUpdated t])
      else []) := by
  cases hb : cb.onTaskUpdatedPresent <;> cases ht : cb.onTaskUpdatedThrows <;>
    simp [toggleFinish, hb, ht]

/-- C4: the key gate is the single de-duplication point.  A toggle whose key
is already pending is a complete no-op (state unchanged, no remote call, no
in-flight record, no events); a toggle whose key is free issues exactly one
remote call, and a second toggle with the same key issued before the first
resolves is the no-op case; and in every reachable configuration the keys of
the in-flight operations are pairwise distinct — never two operations in
flight for the same key. -/
theorem dedup_single_inflight :
    (∀ (s : EngineState) (taskId : String) (idx : Int) (cs : Bool),
        updateKey taskId idx ∈ s.pendingUpdates →
        toggleStart s taskId idx cs =
          { state := s, op := none, calls := [], events := [] }) ∧
    (∀ (s : EngineState) (taskId : String) (idx : Int) (cs : Bool),
        updateKey taskId idx ∉ s.pendingUpdates →
        (toggleStart s taskId idx cs).calls = [RemoteCall.patchRoadmap taskId idx (!cs)] ∧
        toggleStart (toggleStart s taskId idx cs).state taskId idx cs =
          { state := (toggleStart s taskId idx cs).state, op := none,
            calls := [], events := [] }) ∧
    (∀ cfg : Config, Reachable cfg → (cfg.inflight.map InFlight.updateKey).Nodup) := by
  refine ⟨toggleStart_pending, ?_, fun cfg h => (reachable_trackerInv cfg h).1⟩
  intro s taskId idx cs hk
  constructor
  · rw [toggleStart_not_pending s taskId idx cs hk]
  · apply toggleStart_pending
    rw [toggleStart_not_pending s taskId idx cs hk]
    exact List.mem_cons_self _ _

/-- C4 witness: the gate at concrete states, and the invariant at the
initial configuration. -/
theorem dedup_single_inflight_witness :
    (updateKey "t1" 0 ∈ pendingState.pendingUpdates ∧
      toggleStart pendingState "t1" 0 false =
        { state := pendingState, op := none, calls := [], events := [] }) ∧
    (updateKey "t1" 0 ∉ sampleState.pendingUpdates ∧
      (toggleStart sampleState "t1" 0 false).calls = [RemoteCall.patchRoadmap "t1" 0 true] ∧
      toggleStart (toggleStart sampleState "t1" 0 false).state "t1" 0 false =
        { state := (toggleStart sampleState "t1" 0 false).state, op := none,
          calls := [], events := [] }) ∧
    (([] : List InFlight).map InFlight.updateKey).Nodup :=
  ⟨⟨by decide, dedup_single_inflight.1 pendingState "t1" 0 false (by decide)⟩,
   ⟨by decide, dedup_single_inflight.2.1 sampleState "t1" 0 false (by decide)⟩,
   dedup_single_inflight.2.2
     { engine := { tasks := [], optimisticTasks := [], pendingUpdates := [] },
       inflight := [] }
     (Reachable.init [])⟩

/-- C5 counterexample: toggling with a `taskId` absent from the overlay is a
validation failure, yet the remote PATCH call is still issued (and nothing
is logged for the absent-task case), contradicting the claim that the
operation is aborted with no remote call. -/
theorem validation_failure_counterexample :
    (toggleStart sampleState "t9" 0 false).calls ≠ [] ∧
    (toggleStart sampleState "t9" 0 false).calls = [RemoteCall.patchRoadmap "t9" 0 true] ∧
    (toggleStart sampleState "t9" 0 false).events = [] := by
  decide

/-- C5 amended: when validation fails for every task matching `taskId`
(absent task, malformed sequence, or out-of-range position), the overlay is
left unchanged and a warning is logged per matching task (so nothing is
logged when no task matches) — but the operation is not aborted: the key is
still acquired, the remote call is still issued, and the key is released
when the call resolves. -/
theorem validation_failure_behavior
    (s : EngineState) (taskId : String) (idx : Int) (cs : Bool)
    (hk : updateKey taskId idx ∉ s.pendingUpdates)
    (hbad : ∀ t ∈ s.optimisticTasks, t._id = taskId →
      toggleValidationFails t idx = true) :
    (toggleStart s taskId idx cs).state.optimisticTasks = s.optimisticTasks ∧
    (toggleStart s taskId idx cs).calls = [RemoteCall.patchRoadmap taskId idx (!cs)] ∧
    (toggleStart s taskId idx cs).state.pendingUpdates =
      updateKey taskId idx :: s.pendingUpdates ∧
    (toggleStart s taskId idx cs).events.length =
      (s.optimisticTasks.filter fun t => t._id == taskId).length ∧
    (∀ (r : ToggleResult) (cb : CallbackBehavior),
      (handleRoadmapItemToggle s taskId idx cs r cb).1.pendingUpdates = s.pendingUpdates) := by
  rw [toggleStart_not_pending s taskId idx cs hk]
  exact ⟨applyRoadmapToggle_invalid _ _ _ _ hbad, rfl, rfl,
    applyWarnEvents_invalid _ _ _ hbad,
    fun r cb => handleRoadmapItemToggle_pendingUpdates s taskId idx cs r cb⟩

/-- C5 witness: the amended behavior at a concrete state with an absent
`taskId`. -/
theorem validation_failure_behavior_witness :
    (updateKey "t9" 0 ∉ sampleState.pendingUpdates ∧
      ∀ t ∈ sampleState.optimisticTasks, t._id = "t9" →
        toggleValidationFails t 0 = true) ∧
    ((toggleStart sampleState "t9" 0 false).state.optimisticTasks
        = sampleState.optimisticTasks ∧
      (toggleStart sampleState "t9" 0 false).calls = [RemoteCall.patchRoadmap "t9" 0 true] ∧
      (toggleStart sampleState "t9" 0 false).state.pendingUpdates =
        updateKey "t9" 0 :: sampleState.pendingUpdates ∧
      (toggleStart sampleState "t9" 0 false).events.length =
        (sampleState.optimisticTasks.filter fun t => t._id == "t9").length ∧
      (∀ (r : ToggleResult) (cb : CallbackBehavior),
        (handleRoadmapItemToggle sampleState "t9" 0 false r cb).1.pendingUpdates
          = sampleState.pendingUpdates)) :=
  ⟨⟨by decide, by decide⟩,
   validation_failure_behavior sampleState "t9" 0 false (by decide) (by decide)⟩

/-- C6 counterexample: a response with a truthy success flag but no task
payload does not trigger the rollback path: at the concrete post-toggle
state the overlay stays speculative instead of being reseeded from the
captured snapshot, while a transport error at the same state does reseed
it — so a malformed success payload is not treated identically to a
failure. -/
theorem malformed_payload_counterexample :
    ¬ ((toggleFinish (toggleStart sampleState "t1" 0 false).state sampleOp
          (ToggleResult.success none)
          { onTaskUpdatedPresent := true, onTaskUpdatedThrows := false }).1.optimisticTasks
        = sampleOp.capturedTasks) ∧
    ((toggleFinish (toggleStart sampleState "t1" 0 false).state sampleOp
          ToggleResult.transportError
          { onTaskUpdatedPresent := true, onTaskUpdatedThrows := false }).1.optimisticTasks
        = sampleOp.capturedTasks) := by
  decide

/-- C6 amended: a success flag with a missing task payload is treated as a
confirmation without a canonical merge, not as a failure: no rollback occurs
(overlay and snapshot unchanged), the resulting access error is caught by
the callback error handler and logged when the callback is present (nothing
at all happens when it is absent), and the tracker key is still released. -/
theorem malformed_payload_no_rollback (s : EngineState) (op : InFlight)
    (cb : CallbackBehavior) :
    (toggleFinish s op (ToggleResult.success none) cb).1.optimisticTasks
        = s.optimisticTasks ∧
    (toggleFinish s op (ToggleResult.success none) cb).1.tasks = s.tasks ∧
    (toggleFinish s op (ToggleResult.success none) cb).2 =
      (if cb.onTaskUpdatedPresent then [Event.errorLog] else []) ∧
    (toggleFinish s op (ToggleResult.success none) cb).1.pendingUpdates =
      s.pendingUpdates.erase op.updateKey := by
  cases hb : cb.onTaskUpdatedPresent <;> simp [toggleFinish, hb]

/-- C7: the resolution phase removes exactly one occurrence of the key of
the operation it finishes, whatever the outcome (success, failure, transport
error, callback present or throwing); consequently a whole toggle call —
whose start phase added the key — leaves the pending set exactly as it found
it, so a resolved operation never leaks its key as permanently pending. -/
theorem tracker_release_exact :
    (∀ (s : EngineState) (op : InFlight) (r : ToggleResult) (cb : CallbackBehavior),
        (toggleFinish s op r cb).1.pendingUpdates =
          s.pendingUpdates.erase op.updateKey) ∧
    (∀ (s : EngineState) (taskId : String) (idx : Int) (cs : Bool)
        (r : ToggleResult) (cb : CallbackBehavior),
        (handleRoadmapItemToggle s taskId idx cs r cb).1.pendingUpdates =
          s.pendingUpdates) :=
  ⟨toggleFinish_pendingUpdates, handleRoadmapItemToggle_pendingUpdates⟩

/-- A JS value standing where a TaskHeader array element is expected:
either a nullish element (reading `assignedTo` on it throws) or an object
with a nullable `assignedTo`. -/
inductive LooseHeader where
  | nullish
  | obj (assignedTo : Option String)
deriving DecidableEq

/-- A JS value standing where `task.taskHeaders` is expected: absent
(null/undefined, falsy — the `&&` guard short-circuits), a real array
(truthy even when empty, has `.some`), or a truthy non-array value on which
calling `.some` throws. -/
inductive LooseHeaders where
  | absent
  | array (hs : List LooseHeader)
  | nonArrayTruthy
deriving DecidableEq

/-- A JS value standing where a task is expected: nullish (any property
access throws) or an object with the three fields the resolver reads. -/
inductive LooseTask where
  | nullish
  | obj (assignedTo : Option String) (isGroupTask : Bool) (taskHeaders : LooseHeaders)
deriving DecidableEq

/-- `Array.prototype.some` with the predicate
`header.assignedTo === currentUserId`: elements are visited left to right,
and reading `assignedTo` of a nullish element throws before later elements
are reached. -/
def looseAny : List LooseHeader → String → Except Unit Bool
  | [], _ => Except.ok false
  | LooseHeader.nullish :: _, _ => Except.error ()
  | LooseHeader.obj a :: rest, uid =>
    if a = some uid then Except.ok true else looseAny rest uid

/-- Embedding of `isTaskAssignedToMe` over loose JS values: `Except.ok` is a
normal return, `Except.error` a thrown TypeError.  The user guard runs before
any task access; reading `task.assignedTo` on a nullish task throws (line
62); a truthy non-array `taskHeaders` makes `task.taskHeaders.some` throw
(line 68); there is no `Array.isArray` guard on this path, unlike the
roadmap path. -/
def isTaskAssignedToMeLoose (userId : Option String) (task : LooseTask) :
    Except Unit Bool :=
  match userId with
  | none => Except.ok false
  | some uid =>
    if uid = "" then Except.ok false
    else
      match task with
      | LooseTask.nullish => Except.error ()
      | LooseTask.obj assignedTo isGroupTask taskHeaders =>
        if assignedTo = some uid then Except.ok true
        else
          match isGroupTask, taskHeaders with
          | true, LooseHeaders.array hs => looseAny hs uid
          | true, LooseHeaders.nonArrayTruthy => Except.error ()
          | _, _ => Except.ok false

/-- The loose view of a well-formed task: an object whose header collection
is absent or a proper array of header objects. -/
def Task.toLoose (t : Task) : LooseTask :=
  LooseTask.obj t.assignedTo t.isGroupTask
    (match t.taskHeaders with
     | none => LooseHeaders.absent
     | some hs => LooseHeaders.array (hs.map fun h => LooseHeader.obj h.assignedTo))

theorem looseAny_map (hs : List TaskHeader) (uid : String) :
    looseAny (hs.map fun h => LooseHeader.obj h.assignedTo) uid =
      Except.ok (hs.any fun h => h.assignedTo == some uid) := by
  induction hs with
  | nil => rfl
  | cons h rest ih =>
    by_cases ha : h.assignedTo = some uid
    · simp [looseAny, ha]
    · simp [looseAny, ha, ih]

/-- C8 counterexample: the claim says the resolver never raises even on
unknown or malformed task shapes, but with a set actor identifier the source
throws on a nullish task (reading `assignedTo`, line 62), on a group task
whose `taskHeaders` is truthy but not an array (calling `.some`, line 68),
and on a nullish header element reached during the scan — which is why the
rendering call site wraps the call in its own try/catch (lines 305-318). -/
theorem assignment_resolver_raises_counterexample :
    isTaskAssignedToMeLoose (some "u1") LooseTask.nullish = Except.error () ∧
    isTaskAssignedToMeLoose (some "u1")
      (LooseTask.obj none true LooseHeaders.nonArrayTruthy) = Except.error () ∧
    isTaskAssignedToMeLoose (some "u1")
      (LooseTask.obj none true (LooseHeaders.array [LooseHeader.nullish]))
      = Except.error () :=
  ⟨rfl, rfl, rfl⟩

/-- C8 amended: the resolver is a pure function of its inputs and never
consults the member list; whenever the actor identifier is absent or unset
it returns false regardless of the task shape — even shapes any later access
of which would throw — because the user guard precedes all task access; on
every well-formed task it returns exactly the typed resolution (true on
direct assignment, otherwise true iff a group task has a header sequence
with some header assigned to the actor, otherwise false); but it is not
exception-free: a nullish task, a truthy non-array header collection, or a
nullish header element reached during the scan raises, and the call site
guards against this with try/catch. -/
theorem assignment_resolver_loose_spec :
    (∀ task : LooseTask,
        isTaskAssignedToMeLoose none task = Except.ok false ∧
        isTaskAssignedToMeLoose (some "") task = Except.ok false) ∧
    (∀ (u : Option String) (t : Task),
        isTaskAssignedToMeLoose u t.toLoose = Except.ok (isTaskAssignedToMe u t)) ∧
    (∀ (t : Task) (uid : String), uid ≠ "" → t.assignedTo = some uid →
        isTaskAssignedToMe (some uid) t = true) ∧
    (∀ (t : Task) (uid : String), uid ≠ "" → t.assignedTo ≠ some uid →
        (isTaskAssignedToMe (some uid) t = true ↔
          t.isGroupTask = true ∧
          ∃ headers, t.taskHeaders = some headers ∧
            ∃ h ∈ headers, h.assignedTo = some uid)) := by
  refine ⟨fun task => ⟨rfl, rfl⟩, ?_, ?_, ?_⟩
  · intro u t
    cases u with
    | none => rfl
    | some uid =>
      by_cases hu : uid = ""
      · subst hu; rfl
      · by_cases ha : t.assignedTo = some uid
        · simp [isTaskAssignedToMeLoose, isTaskAssignedToMe, Task.toLoose, hu, ha]
        · cases hg : t.isGroupTask with
          | false =>
            cases hth : t.taskHeaders with
            | none =>
              simp [isTaskAssignedToMeLoose, isTaskAssignedToMe, Task.toLoose,
                hu, ha, hg, hth]
            | some hs =>
              simp [isTaskAssignedToMeLoose, isTaskAssignedToMe, Task.toLoose,
                hu, ha, hg, hth]
          | true =>
            cases hth : t.taskHeaders with
            | none =>
              simp [isTaskAssignedToMeLoose, isTaskAssignedToMe, Task.toLoose,
                hu, ha, hg, hth]
            | some hs =>
              simp [isTaskAssignedToMeLoose, isTaskAssignedToMe, Task.toLoose,
                hu, ha, hg, hth, looseAny_map]
  · intro t uid hne hass
    simp [isTaskAssignedToMe, hne, hass]
  · intro t uid hne hass
    cases hg : t.isGroupTask with
    | false => simp [isTaskAssignedToMe, hne, hass, hg]
    | true =>
      cases hth : t.taskHeaders with
      | none => simp [isTaskAssignedToMe, hne, hass, hg, hth]
      | some headers =>
        simp [isTaskAssignedToMe, hne, hass, hg, hth, List.any_eq_true]

/-- C8 witness: a group task with a matching header assignment resolves to
true for that actor, in the typed resolver and in the loose embedding. -/
theorem assignment_resolver_loose_spec_witness :
    ("u1" ≠ "" ∧
      ({ _id := "g1", isGroupTask := true,
         taskHeaders := some [{ title := "h", assignedTo := some "u1" }] } : Task).assignedTo
        ≠ some "u1") ∧
    isTaskAssignedToMe (some "u1")
      { _id := "g1", isGroupTask := true,
        taskHeaders := some [{ title := "h", assignedTo := some "u1" }] } = true ∧
    isTaskAssignedToMeLoose (some "u1")
      ({ _id := "g1", isGroupTask := true,
         taskHeaders := some [{ title := "h", assignedTo := some "u1" }] } : Task).toLoose
      = Except.ok true := by
  have h2 : isTaskAssignedToMe (some "u1")
      { _id := "g1", isGroupTask := true,
        taskHeaders := some [{ title := "h", assignedTo := some "u1" }] } = true :=
    ((assignment_resolver_loose_spec.2.2.2
        { _id := "g1", isGroupTask := true,
          taskHeaders := some [{ title := "h", assignedTo := some "u1" }] }
        "u1" (by decide) (by decide)).mpr
      ⟨rfl, [{ title := "h", assignedTo := some "u1" }], rfl,
       { title := "h", assignedTo := some "u1" }, by simp, rfl⟩)
  exact ⟨⟨by decide, by decide⟩, h2,
    (assignment_resolver_loose_spec.2.1 (some "u1") _).trans (by rw [h2])⟩

/-- C9: `handleDelete` issues exactly one remote delete call; it notifies the
`onTaskDeleted` collaborator with `taskId` iff the remote call reports
success; and in every outcome — success, non-success result, or transport
error — it changes no local state (overlay, snapshot, and tracker are the
state it was given). -/
theorem delete_fail_closed (s : EngineState) (taskId : String) (r : DeleteResult) :
    (handleDelete s taskId r).1 = s ∧
    (handleDelete s taskId r).2.1 = [RemoteCall.deleteTask taskId] ∧
    ((handleDelete s taskId r).2.2 = [Event.taskDeleted taskId] ↔
      r = DeleteResult.success) ∧
    (∀ tid : String, Event.taskDeleted tid ∈ (handleDelete s taskId r).2.2 ↔
      (r = DeleteResult.success ∧ tid = taskId)) := by
  cases r <;> simp [handleDelete]

/-- C10: on the success path with a canonical payload, a throwing
`onTaskUpdated` callback is contained by the reconciler: the error is caught
and logged (the only event is the logged error — no notification escapes,
and `toggleFinish` returns normally rather than propagating), the overlay is
left in its post-confirmation state and the snapshot untouched (no rollback),
and the tracker key is still released. -/
theorem callback_error_contained (s : EngineState) (op : InFlight) (t : Task) :
    (toggleFinish s op (ToggleResult.success (some t))
        { onTaskUpdatedPresent := true, onTaskUpdatedThrows := true }).1.optimisticTasks
      = s.optimisticTasks ∧
    (toggleFinish s op (ToggleResult.success (some t))
        { onTaskUpdatedPresent := true, onTaskUpdatedThrows := true }).1.tasks = s.tasks ∧
    (toggleFinish s op (ToggleResult.success (some t))
        { onTaskUpdatedPresent := true, onTaskUpdatedThrows := true }).2 = [Event.errorLog] ∧
    (toggleFinish s op (ToggleResult.success (some t))
        { onTaskUpdatedPresent := true, onTaskUpdatedThrows := true }).1.pendingUpdates
      = s.pendingUpdates.erase op.updateKey :=
  ⟨rfl, rfl, rfl, rfl⟩

end GrindChain
